import Mathlib

/-!
Shallow embedding of the "Cloud-Computing" repository: four small Flask
services over a businesses/reviews domain.

* `A2` models `Assignment2 - RestAPI with GAE and Cloud/app.py`
  (Google Datastore backend, no authentication).
* `A3` models `Assignment3 - RestAPI with Docker and MySQL/app.py`
  (MySQL backend, pagination).
* `A4` models `Assigment4 - Oauth/app.py` (anti-forgery state tokens).
* `A5` models `Assignment5 - RestAPI with JWT/main.py` (bearer-JWT auth).

JSON request bodies are records of `Option` fields (a key is present in the
request dict iff the field is `some`); the datastore / database is a record
of lists of stored rows together with the next auto-assigned id; each Flask
handler becomes a pure function from its inputs and the store to a
`(body, status)` pair, paired with the new store when it mutates.
-/

set_option autoImplicit false

namespace A2

/-- Abstract names of the JSON keys checked by `validate_fields` for
business payloads. -/
inductive BizField
  | owner_id | name | street_address | city | state | zip_code
  deriving DecidableEq, Repr

/-- A business request body: each key of the JSON dict is present iff the
corresponding field is `some`. -/
structure BizPayload where
  owner_id : Option Nat
  name : Option String
  street_address : Option String
  city : Option String
  state : Option String
  zip_code : Option String
  deriving DecidableEq, Repr

/-- Key-presence check on a business payload (`field in data` in Python). -/
def BizPayload.has (p : BizPayload) : BizField → Bool
  | .owner_id => p.owner_id.isSome
  | .name => p.name.isSome
  | .street_address => p.street_address.isSome
  | .city => p.city.isSome
  | .state => p.state.isSome
  | .zip_code => p.zip_code.isSome

/-- Abstract names of the JSON keys checked for review payloads. -/
inductive RevField
  | user_id | business_id | stars
  deriving DecidableEq, Repr

/-- A review request body, keyed like `BizPayload`. -/
structure ReviewPayload where
  user_id : Option Nat
  business_id : Option Nat
  stars : Option Int
  review_text : Option String
  deriving DecidableEq, Repr

/-- Key-presence check on a review payload. -/
def ReviewPayload.has (p : ReviewPayload) : RevField → Bool
  | .user_id => p.user_id.isSome
  | .business_id => p.business_id.isSome
  | .stars => p.stars.isSome

/-- The `validate_fields` helper of `app.py`: the sublist of required
fields missing from the payload. -/
def validate_fields (p : BizPayload) (required : List BizField) : List BizField :=
  required.filter (fun f => !(p.has f))

/-- The review-payload instance of `validate_fields`. -/
def validate_rev_fields (p : ReviewPayload) (required : List RevField) : List RevField :=
  required.filter (fun f => !(p.has f))

/-- Required fields of `create_business`. -/
def createRequired : List BizField :=
  [.owner_id, .name, .street_address, .state, .city, .zip_code]

/-- Required fields of `edit_business` (the source list omits `state`). -/
def editRequired : List BizField :=
  [.owner_id, .name, .street_address, .city, .zip_code]

/-- Required fields of `create_review`. -/
def reviewRequired : List RevField :=
  [.user_id, .business_id, .stars]

/-- A stored Business entity: datastore key id plus the stored dict. -/
structure Business where
  id : Nat
  data : BizPayload
  deriving DecidableEq, Repr

/-- A stored Review entity. -/
structure Review where
  id : Nat
  data : ReviewPayload
  deriving DecidableEq, Repr

/-- The datastore contents, with the ids the store will assign next. -/
structure Store where
  businesses : List Business
  reviews : List Review
  nextBusinessId : Nat
  nextReviewId : Nat
  deriving DecidableEq, Repr

/-- Response bodies produced by the Assignment 2 handlers. -/
inductive Body
  | biz (id : Nat) (d : BizPayload)
  | bizList (l : List (Nat × BizPayload))
  | rev (id : Nat) (d : ReviewPayload)
  | revList (l : List (Nat × ReviewPayload))
  | err (m : String)
  | emptyBody
  deriving DecidableEq, Repr

/-- A Flask return value: body plus HTTP status. -/
abbrev Resp := Body × Nat

/-- Error message of `missing_fields_response`. -/
def missingMsg : String :=
  "The request body is missing at least one of the required attributes"

/-- Error message of `entity_not_found` (business case). -/
def noBizMsg : String := "No business with this business_id exists"

/-- Conflict message of `create_review`. -/
def conflictMsg : String :=
  "You have already submitted a review for this business. You can update your previous review, or delete it and submit a new review"

/-- The `POST /businesses` handler `create_business`. -/
def create_business (p : BizPayload) (s : Store) : Resp × Store :=
  let missing := validate_fields p createRequired
  if missing.isEmpty then
    let id := s.nextBusinessId
    ((.biz id p, 201),
      { s with businesses := s.businesses ++ [⟨id, p⟩], nextBusinessId := id + 1 })
  else ((.err missingMsg, 400), s)

/-- The `GET /businesses/<id>` handler `get_business_by_id`. -/
def get_business_by_id (id : Nat) (s : Store) : Resp :=
  match s.businesses.find? (fun b => b.id == id) with
  | some b => (.biz b.id b.data, 200)
  | none => (.err noBizMsg, 404)

/-- The datastore query used by `delete_business_by_id`: all reviews whose
stored `business_id` property equals the given id. -/
def reviewsForBusiness (bid : Nat) (s : Store) : List Review :=
  s.reviews.filter (fun r => r.data.business_id == some bid)

/-- The `DELETE /businesses/<id>` handler `delete_business_by_id`: deletes
the matching reviews, then the business. -/
def delete_business_by_id (id : Nat) (s : Store) : Resp × Store :=
  if s.businesses.any (fun b => b.id == id) then
    ((.emptyBody, 204),
      { s with
        reviews := s.reviews.filter (fun r => !(r.data.business_id == some id)),
        businesses := s.businesses.filter (fun b => !(b.id == id)) })
  else ((.err noBizMsg, 404), s)

/-- Dict update of one optional field (`dict.update` keeps the old value
only when the new dict does not carry the key). -/
def updOpt {α : Type} (n o : Option α) : Option α :=
  match n with
  | some v => some v
  | none => o

/-- The stored dict after `business.update(data)`. -/
def BizPayload.updateWith (old p : BizPayload) : BizPayload :=
  { owner_id := updOpt p.owner_id old.owner_id
    name := updOpt p.name old.name
    street_address := updOpt p.street_address old.street_address
    city := updOpt p.city old.city
    state := updOpt p.state old.state
    zip_code := updOpt p.zip_code old.zip_code }

/-- The `PUT /businesses/<id>` handler `edit_business`. Note the source:
the existence check runs first, and on missing fields it calls
`entity_not_found(missing_fields)`, a 404 response. -/
def edit_business (id : Nat) (p : BizPayload) (s : Store) : Resp × Store :=
  match s.businesses.find? (fun b => b.id == id) with
  | none => ((.err noBizMsg, 404), s)
  | some b =>
    let missing := validate_fields p editRequired
    if missing.isEmpty then
      let newData := b.data.updateWith p
      ((.biz id newData, 200),
        { s with businesses :=
            s.businesses.map (fun x => if x.id == id then { x with data := newData } else x) })
    else ((.err noBizMsg, 404), s)

/-- The `GET /owners/<owner_id>/businesses` handler
`list_businesses_for_owner`. -/
def list_businesses_for_owner (oid : Nat) (s : Store) : Resp :=
  (.bizList ((s.businesses.filter (fun b => b.data.owner_id == some oid)).map
      (fun b => (b.id, b.data))), 200)

/-- The `POST /reviews` handler `create_review`: validates fields, checks
the business exists, rejects a duplicate (user_id, business_id) review
with 409, otherwise stores the payload. -/
def create_review (p : ReviewPayload) (s : Store) : Resp × Store :=
  let missing := validate_rev_fields p reviewRequired
  if missing.isEmpty then
    match p.user_id, p.business_id with
    | some uid, some bid =>
      if s.businesses.any (fun b => b.id == bid) then
        if s.reviews.any (fun r =>
            r.data.user_id == some uid && r.data.business_id == some bid) then
          ((.err conflictMsg, 409), s)
        else
          let id := s.nextReviewId
          ((.rev id p, 201),
            { s with reviews := s.reviews ++ [⟨id, p⟩], nextReviewId := id + 1 })
      else ((.err noBizMsg, 404), s)
    | _, _ => ((.err "server error", 500), s)
  else ((.err missingMsg, 400), s)

/-- The `GET /users/<user_id>/reviews` handler `list_reviews_for_user`. -/
def list_reviews_for_user (uid : Nat) (s : Store) : Resp :=
  (.revList ((s.reviews.filter (fun r => r.data.user_id == some uid)).map
      (fun r => (r.id, r.data))), 200)

end A2

namespace A3

/-- A row of the `businesses` table. The `zip_code` column is CHAR(5) but
is written from `int(content['zip_code'])` and re-coerced with `int` on
every read, so it is modelled by its integer value. -/
structure Biz where
  id : Nat
  owner_id : Int
  name : String
  street_address : String
  city : String
  state : String
  zip_code : Int
  deriving DecidableEq, Repr

/-- A row of the `review` table. -/
structure Rev where
  id : Nat
  user_id : Int
  business_id : Nat
  stars : Int
  review_text : String
  deriving DecidableEq, Repr

/-- The MySQL database contents, with the next AUTO_INCREMENT values. -/
structure Db where
  businesses : List Biz
  reviews : List Rev
  nextB : Nat
  nextR : Nat
  deriving DecidableEq, Repr

/-- A business JSON request body (`content`); a key is present iff the
field is `some`. -/
structure BizContent where
  owner_id : Option Int
  name : Option String
  street_address : Option String
  city : Option String
  state : Option String
  zip_code : Option String
  deriving DecidableEq, Repr

/-- A review JSON request body. -/
structure RevContent where
  user_id : Option Int
  business_id : Option Nat
  stars : Option Int
  review_text : Option String
  deriving DecidableEq, Repr

/-- The per-handler missing-fields check
`[field for field in required_fields if field not in content]`, for the
six business fields (every business handler requires all six). -/
def bizMissing (c : BizContent) : List String :=
  (if c.owner_id.isSome then [] else ["owner_id"]) ++
  (if c.name.isSome then [] else ["name"]) ++
  (if c.street_address.isSome then [] else ["street_address"]) ++
  (if c.city.isSome then [] else ["city"]) ++
  (if c.state.isSome then [] else ["state"]) ++
  (if c.zip_code.isSome then [] else ["zip_code"])

/-- The missing-fields check of `create_review` (user_id, business_id,
stars). -/
def revMissing (c : RevContent) : List String :=
  (if c.user_id.isSome then [] else ["user_id"]) ++
  (if c.business_id.isSome then [] else ["business_id"]) ++
  (if c.stars.isSome then [] else ["stars"])

/-- Response bodies of the Assignment 3 handlers. -/
inductive Body
  | items (l : List Biz)
  | one (b : Biz)
  | reviews (l : List Rev)
  | review (r : Rev)
  | err (m : String)
  | emptyBody
  deriving DecidableEq, Repr

/-- A Flask return value of an Assignment 3 handler. -/
abbrev Resp3 := Body × Nat

/-- Missing-attributes message shared by the handlers. -/
def missingMsg3 : String :=
  "The request body is missing at least one of the required attributes"

/-- Not-found message for businesses. -/
def noBizMsg3 : String := "No business with this business_id exists"

/-- The ORDER BY id used by the SELECT statements. -/
def sortById (l : List Biz) : List Biz :=
  l.insertionSort (fun a b => a.id ≤ b.id)

/-- The pagination response shape of `list_businesses`: the JSON object
with an `entries` array and a nullable `next` link. -/
structure PageResp where
  entries : List Biz
  next : Option String
  status : Nat
  deriving DecidableEq, Repr

/-- The `GET /businesses` handler `list_businesses`: SELECT ... ORDER BY id
LIMIT :limit OFFSET :offset, and a `next` URL exactly when the page is
full (`len(businesses) == limit`). -/
def list_businesses (offset limit : Nat) (base : String) (db : Db) : PageResp :=
  let rows := ((sortById db.businesses).drop offset).take limit
  { entries := rows
    next :=
      if rows.length = limit then
        some (base ++ "?offset=" ++ toString (offset + limit) ++ "&limit=" ++ toString limit)
      else none
    status := 200 }

/-- The `PUT /businesses/<id>` handler `edit_business`: validates the six
required fields first (400), then checks existence (404), then updates
with `int(content['zip_code'])` (`ValueError` is caught and becomes a
500). -/
def edit_business (id : Nat) (c : BizContent) (db : Db) : Resp3 × Db :=
  if (bizMissing c).isEmpty then
    if db.businesses.any (fun b => b.id == id) then
      match c.owner_id, c.name, c.street_address, c.city, c.state, c.zip_code with
      | some o, some n, some sa, some ci, some st, some z =>
        match z.toInt? with
        | some zi =>
          let newRow : Biz :=
            { id := id, owner_id := o, name := n, street_address := sa
              city := ci, state := st, zip_code := zi }
          ((.one newRow, 200),
            { db with businesses :=
                db.businesses.map (fun b => if b.id == id then newRow else b) })
        | none => ((.err "Unable to update business", 500), db)
      | _, _, _, _, _, _ => ((.err "Unable to update business", 500), db)
    else ((.err noBizMsg3, 404), db)
  else ((.err missingMsg3, 400), db)

/-- The `DELETE /businesses/<id>` handler `delete_business`: existence
check, DELETE FROM review WHERE business_id, then DELETE the business. -/
def delete_business (id : Nat) (db : Db) : Resp3 × Db :=
  if db.businesses.any (fun b => b.id == id) then
    ((.emptyBody, 204),
      { db with
        reviews := db.reviews.filter (fun r => !(r.business_id == id)),
        businesses := db.businesses.filter (fun b => !(b.id == id)) })
  else ((.err noBizMsg3, 404), db)

/-- The `GET /owners/<owner_id>/businesses` handler
`list_businesses_for_owner`: returns 404 when the owner has no
businesses, otherwise the rows with 200. -/
def list_businesses_for_owner (oid : Int) (db : Db) : Resp3 :=
  let rows := sortById (db.businesses.filter (fun b => b.owner_id == oid))
  if rows.isEmpty then (.err "No businesses found for this owner", 404)
  else (.items rows, 200)

/-- The `POST /reviews` handler `create_review`: validates fields (400),
checks the business exists (404), rejects a duplicate
(user_id, business_id) review (409), otherwise inserts the row with
`review_text` defaulted to the empty string. -/
def create_review (c : RevContent) (db : Db) : Resp3 × Db :=
  if (revMissing c).isEmpty then
    match c.user_id, c.business_id, c.stars with
    | some uid, some bid, some st =>
      if db.businesses.any (fun b => b.id == bid) then
        if db.reviews.any (fun r => r.user_id == uid && r.business_id == bid) then
          ((.err A2.conflictMsg, 409), db)
        else
          let id := db.nextR
          let row : Rev :=
            { id := id, user_id := uid, business_id := bid, stars := st
              review_text := c.review_text.getD "" }
          ((.review row, 201),
            { db with reviews := db.reviews ++ [row], nextR := id + 1 })
      else ((.err noBizMsg3, 404), db)
    | _, _, _ => ((.err "Unable to create review", 500), db)
  else ((.err missingMsg3, 400), db)

/-- The `GET /users/<user_id>/reviews` handler `get_reviews_for_user`: the
source returns `jsonify([]), 404` when the user has no reviews, and the
rows with 200 otherwise. -/
def get_reviews_for_user (uid : Int) (db : Db) : Resp3 :=
  let rows := db.reviews.filter (fun r => r.user_id == uid)
  if rows.isEmpty then (.reviews [], 404)
  else (.reviews rows, 200)

end A3

namespace A4

/-- The server-side store of anti-forgery state tokens: the `state`
values of the Datastore entities of kind `state` (entity order models
query result order). -/
abbrev StateStore := List String

/-- The `verify_state` helper: query for entities whose `state` property
equals the presented value; when one exists, delete the first result and
succeed, otherwise fail without touching the store. -/
def verify_state (st : String) (store : StateStore) : Bool × StateStore :=
  if st ∈ store then (true, store.erase st) else (false, store)

/-- Outcome of the state-verification fragment of `oauth_callback`:
`fail400` is the literal `("State verification failed", 400)` return,
`proceed` means verification passed and the handler continues to the
token exchange. -/
inductive StateCheck
  | proceed
  | fail400
  deriving DecidableEq, Repr

/-- The guard `if not state or not verify_state(state): return ..., 400`
of `oauth_callback`. The query parameter is `none` when absent; Python
truthiness also rejects the empty string before `verify_state` runs. -/
def oauth_callback_state (state : Option String) (store : StateStore) :
    StateCheck × StateStore :=
  match state with
  | none => (.fail400, store)
  | some st =>
    if st = "" then (.fail400, store)
    else
      let r := verify_state st store
      if r.1 then (.proceed, r.2) else (.fail400, r.2)

end A4

namespace A5

/-- The claims of a successfully decoded JWT; `sub` is `none` when the
payload dict has no `sub` key. -/
structure Payload where
  sub : Option String
  deriving DecidableEq, Repr

/-- Possible shapes of the Authorization header and of the external
JWKS / signature / claims checks performed by `verify_jwt`; every branch
of the source function other than a fully valid token returns `None`. -/
inductive TokenCheck
  | missingHeader
  | malformedToken
  | hs256Alg
  | noMatchingKey
  | expiredSignature
  | badClaims
  | decodeError
  | valid (p : Payload)
  deriving DecidableEq, Repr

/-- The result of `verify_jwt`: the decoded payload on success, `None`
on every failure branch. -/
def verify_jwt : TokenCheck → Option Payload
  | .valid p => some p
  | _ => none

/-- A stored business entity of the JWT variant (`owner_id` is the JWT
`sub`, a string; `inspection_score` is optional). -/
structure Biz where
  id : Nat
  owner_id : String
  name : String
  street_address : String
  city : String
  state : String
  zip_code : String
  inspection_score : Option Int
  deriving DecidableEq, Repr

/-- The datastore contents of the JWT variant. -/
structure Store where
  businesses : List Biz
  nextId : Nat
  deriving DecidableEq, Repr

/-- A list entry produced by `businesses_list`; `inspection_score` is
nulled out for unauthenticated callers. -/
structure Entry where
  id : Nat
  owner_id : String
  name : String
  street_address : String
  city : String
  state : String
  zip_code : String
  inspection_score : Option Int
  self : String
  deriving DecidableEq, Repr

/-- Response bodies of the Assignment 5 handlers. -/
inductive Body
  | one (b : Biz) (self : String)
  | list (l : List Entry)
  | err (m : String)
  | emptyBody
  deriving DecidableEq, Repr

/-- A Flask return value of an Assignment 5 handler. -/
abbrev Resp5 := Body × Nat

/-- Unauthorized message of the JWT handlers. -/
def badJwtMsg : String := "Invalid JWT / Unauthorized access."

/-- Not-found-worded message returned with status 403. -/
def noBizMsg5 : String := "No business with this business_id exists"

/-- The `GET /businesses/<id>` handler `get_business`: 401 without a
payload; when the business is absent or the token's `sub` differs from
the stored `owner_id`, the handler answers 403 with the not-found
message; a payload without a `sub` key raises `KeyError`, a 500. -/
def get_business (auth : Option Payload) (id : Nat) (base : String) (s : Store) :
    Resp5 :=
  match auth with
  | none => (.err badJwtMsg, 401)
  | some p =>
    match s.businesses.find? (fun b => b.id == id) with
    | none => (.err noBizMsg5, 403)
    | some b =>
      match p.sub with
      | none => (.err "Internal Server Error", 500)
      | some u =>
        if u = b.owner_id then
          (.one b (base ++ "businesses/" ++ toString b.id), 200)
        else (.err noBizMsg5, 403)

/-- Python truthiness of `sub = payload.get('sub') if payload else None`:
the filter is applied only when the payload exists and carries a
non-empty `sub`. -/
def effectiveSub (auth : Option Payload) : Option String :=
  match auth with
  | some p =>
    match p.sub with
    | some u => if u = "" then none else some u
    | none => none
  | none => none

/-- The `GET /businesses` handler `businesses_list`: never 401; with a
truthy `sub` it filters by owner and reveals `inspection_score`; without
one it lists every business and nulls `inspection_score`. -/
def businesses_list (auth : Option Payload) (base : String) (s : Store) : Resp5 :=
  let sub := effectiveSub auth
  let rows : List Biz :=
    match sub with
    | some u => s.businesses.filter (fun b => b.owner_id == u)
    | none => s.businesses
  let entries := rows.map (fun b =>
    { id := b.id, owner_id := b.owner_id, name := b.name
      street_address := b.street_address, city := b.city, state := b.state
      zip_code := b.zip_code
      inspection_score := if sub.isSome then b.inspection_score else none
      self := base ++ "businesses/" ++ toString b.id : Entry })
  (.list entries, 200)

end A5

section Helpers

/-- Finding in an appended list skips a prefix on which the predicate is
everywhere false. -/
theorem find?_append_of_forall_false {α : Type} (p : α → Bool) (l1 l2 : List α)
    (h : ∀ a ∈ l1, p a = false) : (l1 ++ l2).find? p = l2.find? p := by
  induction l1 with
  | nil => rfl
  | cons a as ih =>
    have ha : p a = false := h a (List.mem_cons_self a as)
    have has : ∀ x ∈ as, p x = false := fun x hx => h x (List.mem_cons_of_mem a hx)
    simp [List.find?, ha, ih has]

/-- Filtering by a predicate after keeping only its complement yields the
empty list. -/
theorem filter_after_removing {α : Type} (p : α → Bool) (l : List α) :
    (l.filter (fun a => !(p a))).filter p = [] := by
  induction l with
  | nil => rfl
  | cons a as ih =>
    by_cases ha : p a = true
    · simp [List.filter_cons, ha, ih]
    · simp only [Bool.not_eq_true] at ha
      simp [List.filter_cons, ha, ih]

end Helpers

/-- C5: for every stored set of businesses and every limit and offset,
`GET /businesses` returns at most `limit` entries, the response's `next`
field is non-null iff exactly `limit` entries were returned, and the
status is 200. -/
theorem C5_pagination_limit_and_next (db : A3.Db) (offset limit : Nat) (base : String) :
    (A3.list_businesses offset limit base db).entries.length ≤ limit
    ∧ ((A3.list_businesses offset limit base db).next ≠ none
        ↔ (A3.list_businesses offset limit base db).entries.length = limit)
    ∧ (A3.list_businesses offset limit base db).status = 200 := by
  refine ⟨?_, ?_, rfl⟩
  · simp [A3.list_businesses, List.length_take]
  · by_cases hc :
      (((A3.sortById db.businesses).drop offset).take limit).length = limit
    · simp [A3.list_businesses, hc]
    · simp [A3.list_businesses, hc]

/-- C10: under the JWT variant, a `GET /businesses` list request whose
token verification fails (missing or invalid bearer token) is not
answered 401: the status is 200, every stored business appears in the
response (no owner filter), and each entry's `inspection_score` is null. -/
theorem C10_list_unauthenticated (tc : A5.TokenCheck) (base : String) (s : A5.Store)
    (h : A5.verify_jwt tc = none) :
    (A5.businesses_list (A5.verify_jwt tc) base s).2 = 200
    ∧ (A5.businesses_list (A5.verify_jwt tc) base s).2 ≠ 401
    ∧ (∃ l, (A5.businesses_list (A5.verify_jwt tc) base s).1 = A5.Body.list l
        ∧ l.length = s.businesses.length
        ∧ (∀ e ∈ l, e.inspection_score = none)
        ∧ (∀ b ∈ s.businesses, ∃ e ∈ l, e.id = b.id ∧ e.owner_id = b.owner_id)) := by
  rw [h]
  refine ⟨rfl, by simp [A5.businesses_list], ?_⟩
  refine ⟨(s.businesses.map (fun b =>
    { id := b.id, owner_id := b.owner_id, name := b.name
      street_address := b.street_address, city := b.city, state := b.state
      zip_code := b.zip_code, inspection_score := none
      self := base ++ "businesses/" ++ toString b.id : A5.Entry })), ?_, ?_, ?_, ?_⟩
  · simp [A5.businesses_list, A5.effectiveSub]
  · simp
  · intro e he
    simp only [List.mem_map] at he
    obtain ⟨b, _, rfl⟩ := he
    rfl
  · intro b hb
    refine ⟨_, List.mem_map_of_mem _ hb, rfl, rfl⟩

/-- C10 witness: instantiation at a missing Authorization header and a
one-business store (business fields in declaration order: id, owner_id,
name, street_address, city, state, zip_code, inspection_score). -/
theorem C10_witness :
    A5.verify_jwt A5.TokenCheck.missingHeader = none
    ∧ ((A5.businesses_list (A5.verify_jwt A5.TokenCheck.missingHeader) "http://h/"
          ⟨[⟨1, "auth0-u1", "A", "1 St", "X", "WA", "98101", some 90⟩], 2⟩).2 = 200
      ∧ (A5.businesses_list (A5.verify_jwt A5.TokenCheck.missingHeader) "http://h/"
          ⟨[⟨1, "auth0-u1", "A", "1 St", "X", "WA", "98101", some 90⟩], 2⟩).2 ≠ 401
      ∧ (∃ l, (A5.businesses_list (A5.verify_jwt A5.TokenCheck.missingHeader) "http://h/"
            ⟨[⟨1, "auth0-u1", "A", "1 St", "X", "WA", "98101", some 90⟩], 2⟩).1
            = A5.Body.list l
        ∧ l.length = ([⟨1, "auth0-u1", "A", "1 St", "X", "WA", "98101", some 90⟩]
            : List A5.Biz).length
        ∧ (∀ e ∈ l, e.inspection_score = none)
        ∧ (∀ b ∈ ([⟨1, "auth0-u1", "A", "1 St", "X", "WA", "98101", some 90⟩]
              : List A5.Biz),
            ∃ e ∈ l, e.id = b.id ∧ e.owner_id = b.owner_id))) :=
  ⟨rfl, C10_list_unauthenticated A5.TokenCheck.missingHeader "http://h/"
    ⟨[⟨1, "auth0-u1", "A", "1 St", "X", "WA", "98101", some 90⟩], 2⟩ rfl⟩

/-- C1 counterexample: a valid JWT whose `sub` (`user-b`) differs from the
stored owner (`user-a`) receives status 403 from `get_business`, not the
404 the claim states. -/
theorem C1_counterexample :
    (A5.get_business (A5.verify_jwt (A5.TokenCheck.valid ⟨some "user-b"⟩))
        1 "http://h/"
        ⟨[⟨1, "user-a", "A", "1 St", "X", "WA", "98101", some 90⟩], 2⟩).2 = 403
    ∧ (A5.get_business (A5.verify_jwt (A5.TokenCheck.valid ⟨some "user-b"⟩))
        1 "http://h/"
        ⟨[⟨1, "user-a", "A", "1 St", "X", "WA", "98101", some 90⟩], 2⟩).2 ≠ 404 := by
  constructor
  · rfl
  · decide

/-- C1 amended: under the JWT variant, a `GET /businesses/<id>` request
with a valid JWT whose `sub` differs from the stored owner is answered
403 carrying the not-found error message, and the business data is not
returned. -/
theorem C1_owner_mismatch_hides_business (p : A5.Payload) (u : String) (id : Nat)
    (base : String) (s : A5.Store) (b : A5.Biz)
    (hfind : s.businesses.find? (fun x => x.id == id) = some b)
    (hsub : p.sub = some u) (hdiff : u ≠ b.owner_id) :
    A5.get_business (A5.verify_jwt (A5.TokenCheck.valid p)) id base s
      = (A5.Body.err A5.noBizMsg5, 403) := by
  show A5.get_business (some p) id base s = (A5.Body.err A5.noBizMsg5, 403)
  unfold A5.get_business
  rw [hfind]
  simp [hsub, hdiff]

/-- C1 witness: instantiation of the amended theorem at the
counterexample's store. -/
theorem C1_witness :
    (([⟨1, "user-a", "A", "1 St", "X", "WA", "98101", some 90⟩]
        : List A5.Biz).find? (fun x => x.id == 1)
      = some ⟨1, "user-a", "A", "1 St", "X", "WA", "98101", some 90⟩)
    ∧ (A5.Payload.mk (some "user-b")).sub = some "user-b"
    ∧ ("user-b" : String) ≠ "user-a"
    ∧ A5.get_business (A5.verify_jwt (A5.TokenCheck.valid ⟨some "user-b"⟩))
        1 "http://h/"
        ⟨[⟨1, "user-a", "A", "1 St", "X", "WA", "98101", some 90⟩], 2⟩
      = (A5.Body.err A5.noBizMsg5, 403) :=
  ⟨rfl, rfl, by decide,
    C1_owner_mismatch_hides_business ⟨some "user-b"⟩ "user-b" 1 "http://h/"
      ⟨[⟨1, "user-a", "A", "1 St", "X", "WA", "98101", some 90⟩], 2⟩
      ⟨1, "user-a", "A", "1 St", "X", "WA", "98101", some 90⟩
      rfl rfl (by decide)⟩

/-- C8: a stored anti-forgery state token occurring once in the store is
single-use. The first callback presenting it proceeds past verification
and deletes it; a second callback presenting the same value is rejected
with the 400 response and leaves the store unchanged; a callback whose
state matches no stored token, or whose state parameter is absent, is
rejected with the store unchanged; and every call either consumes exactly
the matched token and proceeds, or rejects and leaves the store intact —
no other transition exists. -/
theorem C8_state_token_single_use (st : String) (store : A4.StateStore)
    (hne : st ≠ "") (hcount : store.count st = 1) :
    A4.oauth_callback_state (some st) store
        = (A4.StateCheck.proceed, store.erase st)
    ∧ A4.oauth_callback_state (some st) (store.erase st)
        = (A4.StateCheck.fail400, store.erase st)
    ∧ (∀ s0 store0, s0 ∉ store0 →
        A4.oauth_callback_state (some s0) store0 = (A4.StateCheck.fail400, store0))
    ∧ A4.oauth_callback_state none store = (A4.StateCheck.fail400, store)
    ∧ (∀ so store0,
        ((A4.oauth_callback_state so store0).1 = A4.StateCheck.proceed
          ∧ ∃ y, so = some y ∧ y ∈ store0
              ∧ (A4.oauth_callback_state so store0).2 = store0.erase y)
        ∨ ((A4.oauth_callback_state so store0).1 = A4.StateCheck.fail400
          ∧ (A4.oauth_callback_state so store0).2 = store0)) := by
  have hmem : st ∈ store := List.count_pos_iff.mp (by omega)
  have hout : st ∉ store.erase st := by
    intro hm
    have := List.count_pos_iff.mpr hm
    rw [List.count_erase_self] at this
    omega
  have habsent : ∀ s0 store0, s0 ∉ store0 →
      A4.oauth_callback_state (some s0) store0 = (A4.StateCheck.fail400, store0) := by
    intro s0 store0 h0
    by_cases hz : s0 = ""
    · simp [A4.oauth_callback_state, hz]
    · simp [A4.oauth_callback_state, A4.verify_state, hz, h0]
  refine ⟨?_, habsent st (store.erase st) hout, habsent, rfl, ?_⟩
  · simp [A4.oauth_callback_state, A4.verify_state, hne, hmem]
  · intro so store0
    match so with
    | none => exact Or.inr ⟨rfl, rfl⟩
    | some y =>
      by_cases hz : y = ""
      · exact Or.inr ⟨by simp [A4.oauth_callback_state, hz], by simp [A4.oauth_callback_state, hz]⟩
      · by_cases hy : y ∈ store0
        · refine Or.inl ⟨?_, y, rfl, hy, ?_⟩
          · simp [A4.oauth_callback_state, A4.verify_state, hz, hy]
          · simp [A4.oauth_callback_state, A4.verify_state, hz, hy]
        · exact Or.inr ⟨by simp [habsent y store0 hy], by simp [habsent y store0 hy]⟩

/-- C8 witness: a store holding the single token value `tok`. -/
theorem C8_witness :
    ("tok" : String) ≠ ""
    ∧ (["tok"] : A4.StateStore).count "tok" = 1
    ∧ (A4.oauth_callback_state (some "tok") ["tok"]
          = (A4.StateCheck.proceed, (["tok"] : A4.StateStore).erase "tok")
      ∧ A4.oauth_callback_state (some "tok") ((["tok"] : A4.StateStore).erase "tok")
          = (A4.StateCheck.fail400, (["tok"] : A4.StateStore).erase "tok")
      ∧ (∀ s0 store0, s0 ∉ store0 →
          A4.oauth_callback_state (some s0) store0 = (A4.StateCheck.fail400, store0))
      ∧ A4.oauth_callback_state none ["tok"] = (A4.StateCheck.fail400, ["tok"])
      ∧ (∀ so store0,
          ((A4.oauth_callback_state so store0).1 = A4.StateCheck.proceed
            ∧ ∃ y, so = some y ∧ y ∈ store0
                ∧ (A4.oauth_callback_state so store0).2 = store0.erase y)
          ∨ ((A4.oauth_callback_state so store0).1 = A4.StateCheck.fail400
            ∧ (A4.oauth_callback_state so store0).2 = store0))) :=
  ⟨by decide, by decide, C8_state_token_single_use "tok" ["tok"] (by decide) (by decide)⟩

/-- C9: a `POST /businesses` whose payload carries all required fields is
answered 201 with a body holding the assigned id and the payload's
fields, and a subsequent `GET /businesses/<id>` with that id is answered
200 with the same record. The freshness hypothesis states that the store
assigns an id not already in use, as the datastore guarantees. -/
theorem C9_create_then_read (p : A2.BizPayload) (s : A2.Store)
    (hval : A2.validate_fields p A2.createRequired = [])
    (hfresh : ∀ b ∈ s.businesses, b.id ≠ s.nextBusinessId) :
    (A2.create_business p s).1 = (A2.Body.biz s.nextBusinessId p, 201)
    ∧ A2.get_business_by_id s.nextBusinessId (A2.create_business p s).2
        = (A2.Body.biz s.nextBusinessId p, 200) := by
  have hcreate : A2.create_business p s
      = ((A2.Body.biz s.nextBusinessId p, 201),
        ⟨s.businesses ++ [⟨s.nextBusinessId, p⟩], s.reviews,
          s.nextBusinessId + 1, s.nextReviewId⟩) := by
    simp [A2.create_business, hval]
  refine ⟨by rw [hcreate], ?_⟩
  rw [hcreate]
  unfold A2.get_business_by_id
  rw [find?_append_of_forall_false _ s.businesses _
    (fun b hb => by simpa using hfresh b hb)]
  simp [List.find?]

/-- C9 witness: creating a fully populated business in an empty store and
reading it back. -/
theorem C9_witness :
    A2.validate_fields
        ⟨some 1, some "A", some "1 St", some "X", some "WA", some "98101"⟩
        A2.createRequired = []
    ∧ (∀ b ∈ (⟨[], [], 1, 1⟩ : A2.Store).businesses,
        b.id ≠ (⟨[], [], 1, 1⟩ : A2.Store).nextBusinessId)
    ∧ ((A2.create_business
          ⟨some 1, some "A", some "1 St", some "X", some "WA", some "98101"⟩
          ⟨[], [], 1, 1⟩).1
        = (A2.Body.biz 1 ⟨some 1, some "A", some "1 St", some "X", some "WA", some "98101"⟩, 201)
      ∧ A2.get_business_by_id 1
          (A2.create_business
            ⟨some 1, some "A", some "1 St", some "X", some "WA", some "98101"⟩
            ⟨[], [], 1, 1⟩).2
        = (A2.Body.biz 1 ⟨some 1, some "A", some "1 St", some "X", some "WA", some "98101"⟩, 200)) :=
  ⟨rfl, by decide,
    C9_create_then_read
      ⟨some 1, some "A", some "1 St", some "X", some "WA", some "98101"⟩
      ⟨[], [], 1, 1⟩ rfl (by decide)⟩

/-- C2: a `POST /reviews` whose (user_id, business_id) pair already has a
stored review is answered 409 in both the GAE and the MySQL variant, and
the store is unchanged — the original review keeps its fields and no new
review is written. The hypotheses supply a complete payload and an
existing referenced business, the state in which the duplicate check is
reached. -/
theorem C2_duplicate_review_conflict
    (p : A2.ReviewPayload) (s : A2.Store) (uid bid : Nat)
    (c : A3.RevContent) (db : A3.Db) (uid3 : Int) (bid3 : Nat)
    (hpu : p.user_id = some uid) (hpb : p.business_id = some bid)
    (hps : p.stars.isSome = true)
    (hbiz : ∃ b ∈ s.businesses, b.id = bid)
    (hdup : ∃ r ∈ s.reviews, r.data.user_id = some uid ∧ r.data.business_id = some bid)
    (hcu : c.user_id = some uid3) (hcb : c.business_id = some bid3)
    (st3 : Int) (hcs : c.stars = some st3)
    (hbiz3 : ∃ b ∈ db.businesses, b.id = bid3)
    (hdup3 : ∃ r ∈ db.reviews, r.user_id = uid3 ∧ r.business_id = bid3) :
    A2.create_review p s = ((A2.Body.err A2.conflictMsg, 409), s)
    ∧ A3.create_review c db = ((A3.Body.err A2.conflictMsg, 409), db) := by
  constructor
  · simp [A2.create_review, A2.validate_rev_fields, A2.reviewRequired,
      A2.ReviewPayload.has, hpu, hpb, hps, hbiz, hdup]
  · simp [A3.create_review, A3.revMissing, hcu, hcb, hcs, hbiz3, hdup3]

/-- C2 witness: both stores already hold a review by user 7 on business
5; a fresh posting of the same pair is rejected 409 with the store
untouched. -/
theorem C2_witness :
    (A2.ReviewPayload.user_id ⟨some 7, some 5, some 2, none⟩ = some 7)
    ∧ (A2.ReviewPayload.business_id ⟨some 7, some 5, some 2, none⟩ = some 5)
    ∧ (A2.ReviewPayload.stars ⟨some 7, some 5, some 2, none⟩).isSome = true
    ∧ (∃ b ∈ (⟨[⟨5, ⟨some 1, some "A", some "1 St", some "X", some "WA", some "98101"⟩⟩],
          [⟨9, ⟨some 7, some 5, some 4, some "good"⟩⟩], 6, 10⟩ : A2.Store).businesses,
        b.id = 5)
    ∧ (∃ r ∈ (⟨[⟨5, ⟨some 1, some "A", some "1 St", some "X", some "WA", some "98101"⟩⟩],
          [⟨9, ⟨some 7, some 5, some 4, some "good"⟩⟩], 6, 10⟩ : A2.Store).reviews,
        r.data.user_id = some 7 ∧ r.data.business_id = some 5)
    ∧ (A3.RevContent.user_id ⟨some 7, some 5, some 2, none⟩ = some 7)
    ∧ (A3.RevContent.business_id ⟨some 7, some 5, some 2, none⟩ = some 5)
    ∧ (A3.RevContent.stars ⟨some 7, some 5, some 2, none⟩ = some 2)
    ∧ (∃ b ∈ (⟨[⟨5, 1, "A", "1 St", "X", "WA", 98101⟩],
          [⟨9, 7, 5, 4, "good"⟩], 6, 10⟩ : A3.Db).businesses, b.id = 5)
    ∧ (∃ r ∈ (⟨[⟨5, 1, "A", "1 St", "X", "WA", 98101⟩],
          [⟨9, 7, 5, 4, "good"⟩], 6, 10⟩ : A3.Db).reviews,
        r.user_id = 7 ∧ r.business_id = 5)
    ∧ (A2.create_review ⟨some 7, some 5, some 2, none⟩
          ⟨[⟨5, ⟨some 1, some "A", some "1 St", some "X", some "WA", some "98101"⟩⟩],
            [⟨9, ⟨some 7, some 5, some 4, some "good"⟩⟩], 6, 10⟩
        = ((A2.Body.err A2.conflictMsg, 409),
            ⟨[⟨5, ⟨some 1, some "A", some "1 St", some "X", some "WA", some "98101"⟩⟩],
              [⟨9, ⟨some 7, some 5, some 4, some "good"⟩⟩], 6, 10⟩)
      ∧ A3.create_review ⟨some 7, some 5, some 2, none⟩
          ⟨[⟨5, 1, "A", "1 St", "X", "WA", 98101⟩], [⟨9, 7, 5, 4, "good"⟩], 6, 10⟩
        = ((A3.Body.err A2.conflictMsg, 409),
            ⟨[⟨5, 1, "A", "1 St", "X", "WA", 98101⟩], [⟨9, 7, 5, 4, "good"⟩], 6, 10⟩)) :=
  ⟨rfl, rfl, rfl, by decide, by decide, rfl, rfl, rfl, by decide, by decide,
    C2_duplicate_review_conflict
      ⟨some 7, some 5, some 2, none⟩
      ⟨[⟨5, ⟨some 1, some "A", some "1 St", some "X", some "WA", some "98101"⟩⟩],
        [⟨9, ⟨some 7, some 5, some 4, some "good"⟩⟩], 6, 10⟩ 7 5
      ⟨some 7, some 5, some 2, none⟩
      ⟨[⟨5, 1, "A", "1 St", "X", "WA", 98101⟩], [⟨9, 7, 5, 4, "good"⟩], 6, 10⟩ 7 5
      rfl rfl rfl (by decide) (by decide) rfl rfl 2 rfl (by decide) (by decide)⟩

/-- C3: deleting an existing business answers 204 in both variants, and
afterwards no review whose `business_id` equals the deleted id remains:
the review query for that business returns the empty result. -/
theorem C3_delete_business_cascades (id : Nat) (s : A2.Store) (id3 : Nat) (db : A3.Db)
    (hex : ∃ b ∈ s.businesses, b.id = id)
    (hex3 : ∃ b ∈ db.businesses, b.id = id3) :
    (A2.delete_business_by_id id s).1 = (A2.Body.emptyBody, 204)
    ∧ A2.reviewsForBusiness id (A2.delete_business_by_id id s).2 = []
    ∧ (A3.delete_business id3 db).1 = (A3.Body.emptyBody, 204)
    ∧ (A3.delete_business id3 db).2.reviews.filter (fun r => r.business_id == id3) = [] := by
  have hany : s.businesses.any (fun b => b.id == id) = true := by
    rw [List.any_eq_true]
    obtain ⟨b, hm, hi⟩ := hex
    exact ⟨b, hm, by simp [hi]⟩
  have hany3 : db.businesses.any (fun b => b.id == id3) = true := by
    rw [List.any_eq_true]
    obtain ⟨b, hm, hi⟩ := hex3
    exact ⟨b, hm, by simp [hi]⟩
  have hdel : A2.delete_business_by_id id s
      = ((A2.Body.emptyBody, 204),
        ⟨s.businesses.filter (fun b => !(b.id == id)),
          s.reviews.filter (fun r => !(r.data.business_id == some id)),
          s.nextBusinessId, s.nextReviewId⟩) := by
    unfold A2.delete_business_by_id
    rw [hany]
    simp
  have hdel3 : A3.delete_business id3 db
      = ((A3.Body.emptyBody, 204),
        ⟨db.businesses.filter (fun b => !(b.id == id3)),
          db.reviews.filter (fun r => !(r.business_id == id3)),
          db.nextB, db.nextR⟩) := by
    unfold A3.delete_business
    rw [hany3]
    simp
  refine ⟨by rw [hdel], ?_, by rw [hdel3], ?_⟩
  · rw [hdel]
    exact filter_after_removing (fun r => r.data.business_id == some id) s.reviews
  · rw [hdel3]
    exact filter_after_removing (fun r => r.business_id == id3) db.reviews

/-- C3 witness: deleting business 5, which has one review, in both
variants. -/
theorem C3_witness :
    (∃ b ∈ (⟨[⟨5, ⟨some 1, some "A", some "1 St", some "X", some "WA", some "98101"⟩⟩],
        [⟨9, ⟨some 7, some 5, some 4, some "good"⟩⟩], 6, 10⟩ : A2.Store).businesses,
      b.id = 5)
    ∧ (∃ b ∈ (⟨[⟨5, 1, "A", "1 St", "X", "WA", 98101⟩],
        [⟨9, 7, 5, 4, "good"⟩], 6, 10⟩ : A3.Db).businesses, b.id = 5)
    ∧ ((A2.delete_business_by_id 5
          ⟨[⟨5, ⟨some 1, some "A", some "1 St", some "X", some "WA", some "98101"⟩⟩],
            [⟨9, ⟨some 7, some 5, some 4, some "good"⟩⟩], 6, 10⟩).1
        = (A2.Body.emptyBody, 204)
      ∧ A2.reviewsForBusiness 5
          (A2.delete_business_by_id 5
            ⟨[⟨5, ⟨some 1, some "A", some "1 St", some "X", some "WA", some "98101"⟩⟩],
              [⟨9, ⟨some 7, some 5, some 4, some "good"⟩⟩], 6, 10⟩).2 = []
      ∧ (A3.delete_business 5
          ⟨[⟨5, 1, "A", "1 St", "X", "WA", 98101⟩], [⟨9, 7, 5, 4, "good"⟩], 6, 10⟩).1
        = (A3.Body.emptyBody, 204)
      ∧ (A3.delete_business 5
          ⟨[⟨5, 1, "A", "1 St", "X", "WA", 98101⟩],
            [⟨9, 7, 5, 4, "good"⟩], 6, 10⟩).2.reviews.filter
          (fun r => r.business_id == 5) = []) :=
  ⟨by decide, by decide,
    C3_delete_business_cascades 5
      ⟨[⟨5, ⟨some 1, some "A", some "1 St", some "X", some "WA", some "98101"⟩⟩],
        [⟨9, ⟨some 7, some 5, some 4, some "good"⟩⟩], 6, 10⟩ 5
      ⟨[⟨5, 1, "A", "1 St", "X", "WA", 98101⟩], [⟨9, 7, 5, 4, "good"⟩], 6, 10⟩
      (by decide) (by decide)⟩

/-- C4: a complete `POST /reviews` whose `business_id` references no
stored business is answered 404 in both variants, and the store is
returned unchanged — nothing is written. -/
theorem C4_review_nonexistent_business
    (p : A2.ReviewPayload) (s : A2.Store) (uid bid : Nat)
    (c : A3.RevContent) (db : A3.Db) (uid3 : Int) (bid3 : Nat) (st3 : Int)
    (hpu : p.user_id = some uid) (hpb : p.business_id = some bid)
    (hps : p.stars.isSome = true)
    (hnb : ∀ b ∈ s.businesses, ¬ b.id = bid)
    (hcu : c.user_id = some uid3) (hcb : c.business_id = some bid3)
    (hcs : c.stars = some st3)
    (hnb3 : ∀ b ∈ db.businesses, ¬ b.id = bid3) :
    A2.create_review p s = ((A2.Body.err A2.noBizMsg, 404), s)
    ∧ A3.create_review c db = ((A3.Body.err A3.noBizMsg3, 404), db) := by
  constructor
  · simp only [A2.create_review, A2.validate_rev_fields, A2.reviewRequired,
      A2.ReviewPayload.has, hpu, hpb, hps]
    have hno : ¬ ∃ b ∈ s.businesses, b.id = bid := by
      rintro ⟨b, hb, hid⟩
      exact hnb b hb hid
    simp [hno]
  · simp only [A3.create_review, A3.revMissing, hcu, hcb, hcs]
    have hno : ¬ ∃ b ∈ db.businesses, b.id = bid3 := by
      rintro ⟨b, hb, hid⟩
      exact hnb3 b hb hid
    simp [hno]

/-- C4 witness: posting a review for business 42 while the stores hold
only business 5. -/
theorem C4_witness :
    (A2.ReviewPayload.user_id ⟨some 7, some 42, some 2, none⟩ = some 7)
    ∧ (A2.ReviewPayload.business_id ⟨some 7, some 42, some 2, none⟩ = some 42)
    ∧ (A2.ReviewPayload.stars ⟨some 7, some 42, some 2, none⟩).isSome = true
    ∧ (∀ b ∈ (⟨[⟨5, ⟨some 1, some "A", some "1 St", some "X", some "WA", some "98101"⟩⟩],
          [], 6, 1⟩ : A2.Store).businesses, ¬ b.id = 42)
    ∧ (A3.RevContent.user_id ⟨some 7, some 42, some 2, none⟩ = some 7)
    ∧ (A3.RevContent.business_id ⟨some 7, some 42, some 2, none⟩ = some 42)
    ∧ (A3.RevContent.stars ⟨some 7, some 42, some 2, none⟩ = some 2)
    ∧ (∀ b ∈ (⟨[⟨5, 1, "A", "1 St", "X", "WA", 98101⟩], [], 6, 1⟩ : A3.Db).businesses,
        ¬ b.id = 42)
    ∧ (A2.create_review ⟨some 7, some 42, some 2, none⟩
          ⟨[⟨5, ⟨some 1, some "A", some "1 St", some "X", some "WA", some "98101"⟩⟩], [], 6, 1⟩
        = ((A2.Body.err A2.noBizMsg, 404),
            ⟨[⟨5, ⟨some 1, some "A", some "1 St", some "X", some "WA", some "98101"⟩⟩], [], 6, 1⟩)
      ∧ A3.create_review ⟨some 7, some 42, some 2, none⟩
          ⟨[⟨5, 1, "A", "1 St", "X", "WA", 98101⟩], [], 6, 1⟩
        = ((A3.Body.err A3.noBizMsg3, 404),
            ⟨[⟨5, 1, "A", "1 St", "X", "WA", 98101⟩], [], 6, 1⟩)) :=
  ⟨rfl, rfl, rfl, by decide, rfl, rfl, rfl, by decide,
    C4_review_nonexistent_business
      ⟨some 7, some 42, some 2, none⟩
      ⟨[⟨5, ⟨some 1, some "A", some "1 St", some "X", some "WA", some "98101"⟩⟩], [], 6, 1⟩ 7 42
      ⟨some 7, some 42, some 2, none⟩
      ⟨[⟨5, 1, "A", "1 St", "X", "WA", 98101⟩], [], 6, 1⟩ 7 42 2
      rfl rfl rfl (by decide) rfl rfl rfl (by decide)⟩

/-- C6 counterexample: on an empty database, the MySQL variant's
`GET /owners/7/businesses` is answered 404, not 200 with an empty list
as the claim states. -/
theorem C6_counterexample :
    (A3.list_businesses_for_owner 7 ⟨[], [], 1, 1⟩).2 = 404
    ∧ (A3.list_businesses_for_owner 7 ⟨[], [], 1, 1⟩).2 ≠ 200 :=
  ⟨rfl, by decide⟩

/-- C6 amended: when no records match, the GAE variant's owner listing is
answered 200 with an empty list; but the MySQL variant's
`GET /owners/<owner_id>/businesses` is answered 404, and its
`GET /users/<user_id>/reviews` is answered 404 carrying an empty list
body. -/
theorem C6_empty_list_statuses (oid2 : Nat) (s : A2.Store) (oid3 : Int) (db : A3.Db)
    (uid3 : Int) (db2 : A3.Db)
    (h2 : ∀ b ∈ s.businesses, ¬ b.data.owner_id = some oid2)
    (h3 : ∀ b ∈ db.businesses, ¬ b.owner_id = oid3)
    (h4 : ∀ r ∈ db2.reviews, ¬ r.user_id = uid3) :
    A2.list_businesses_for_owner oid2 s = (A2.Body.bizList [], 200)
    ∧ A3.list_businesses_for_owner oid3 db
        = (A3.Body.err "No businesses found for this owner", 404)
    ∧ A3.get_reviews_for_user uid3 db2 = (A3.Body.reviews [], 404) := by
  have hf2 : s.businesses.filter (fun b => b.data.owner_id == some oid2) = [] :=
    List.filter_eq_nil_iff.mpr (fun b hb => by simp [h2 b hb])
  have hf3 : db.businesses.filter (fun b => b.owner_id == oid3) = [] :=
    List.filter_eq_nil_iff.mpr (fun b hb => by simp [h3 b hb])
  have hf4 : db2.reviews.filter (fun r => r.user_id == uid3) = [] :=
    List.filter_eq_nil_iff.mpr (fun r hr => by simp [h4 r hr])
  refine ⟨?_, ?_, ?_⟩
  · unfold A2.list_businesses_for_owner
    rw [hf2]
    rfl
  · unfold A3.list_businesses_for_owner
    rw [hf3]
    rfl
  · unfold A3.get_reviews_for_user
    rw [hf4]
    rfl

/-- C6 witness: stores holding a single record of a different owner and
user. -/
theorem C6_witness :
    (∀ b ∈ (⟨[⟨5, ⟨some 1, some "A", some "1 St", some "X", some "WA", some "98101"⟩⟩],
        [], 6, 1⟩ : A2.Store).businesses, ¬ b.data.owner_id = some 7)
    ∧ (∀ b ∈ (⟨[⟨5, 1, "A", "1 St", "X", "WA", 98101⟩], [], 6, 1⟩ : A3.Db).businesses,
        ¬ b.owner_id = 7)
    ∧ (∀ r ∈ (⟨[], [⟨9, 1, 5, 4, "good"⟩], 1, 10⟩ : A3.Db).reviews, ¬ r.user_id = 7)
    ∧ (A2.list_businesses_for_owner 7
          ⟨[⟨5, ⟨some 1, some "A", some "1 St", some "X", some "WA", some "98101"⟩⟩], [], 6, 1⟩
        = (A2.Body.bizList [], 200)
      ∧ A3.list_businesses_for_owner 7 ⟨[⟨5, 1, "A", "1 St", "X", "WA", 98101⟩], [], 6, 1⟩
        = (A3.Body.err "No businesses found for this owner", 404)
      ∧ A3.get_reviews_for_user 7 ⟨[], [⟨9, 1, 5, 4, "good"⟩], 1, 10⟩
        = (A3.Body.reviews [], 404)) :=
  ⟨by decide, by decide, by decide,
    C6_empty_list_statuses 7
      ⟨[⟨5, ⟨some 1, some "A", some "1 St", some "X", some "WA", some "98101"⟩⟩], [], 6, 1⟩ 7
      ⟨[⟨5, 1, "A", "1 St", "X", "WA", 98101⟩], [], 6, 1⟩ 7
      ⟨[], [⟨9, 1, 5, 4, "good"⟩], 1, 10⟩
      (by decide) (by decide) (by decide)⟩

/-- C7 counterexample: in the GAE variant, a `PUT /businesses/1` on an
existing business with a body missing the required `city` field is
answered 404 (the handler applies the not-found response to the
missing-field list), not 400 as the claim states. -/
theorem C7_counterexample :
    ((A2.edit_business 1 ⟨some 1, some "A", some "1 St", none, some "WA", some "98101"⟩
        ⟨[⟨1, ⟨some 1, some "A", some "1 St", some "X", some "WA", some "98101"⟩⟩],
          [], 2, 1⟩).1).2 = 404
    ∧ ((A2.edit_business 1 ⟨some 1, some "A", some "1 St", none, some "WA", some "98101"⟩
        ⟨[⟨1, ⟨some 1, some "A", some "1 St", some "X", some "WA", some "98101"⟩⟩],
          [], 2, 1⟩).1).2 ≠ 400 :=
  ⟨rfl, by decide⟩

/-- C7 amended: in the MySQL variant, a `PUT /businesses/<id>` whose body
misses a required field is answered 400 with the database untouched,
regardless of whether the business exists; in the GAE variant such a
request is answered 404 — when the business is absent by the existence
check that runs first, and when it exists because the handler answers a
missing checked field (`state` is not on its checked list) with the
not-found response. -/
theorem C7_put_missing_fields (id3 : Nat) (c : A3.BizContent) (db : A3.Db)
    (id2 : Nat) (p : A2.BizPayload) (s : A2.Store)
    (hm3 : (A3.bizMissing c).isEmpty = false)
    (hm2 : (A2.validate_fields p A2.editRequired).isEmpty = false) :
    A3.edit_business id3 c db = ((A3.Body.err A3.missingMsg3, 400), db)
    ∧ (A2.edit_business id2 p s).1.2 = 404 := by
  constructor
  · simp [A3.edit_business, hm3]
  · unfold A2.edit_business
    cases hfind : s.businesses.find? (fun b => b.id == id2) with
    | none => rfl
    | some b => simp [hm2]

/-- C7 witness: a body missing only `city`, against a database not
holding business 1 and a datastore holding it. -/
theorem C7_witness :
    (A3.bizMissing ⟨some 1, some "A", some "1 St", none, some "WA", some "98101"⟩).isEmpty
      = false
    ∧ (A2.validate_fields ⟨some 1, some "A", some "1 St", none, some "WA", some "98101"⟩
        A2.editRequired).isEmpty = false
    ∧ (A3.edit_business 1 ⟨some 1, some "A", some "1 St", none, some "WA", some "98101"⟩
          ⟨[], [], 1, 1⟩
        = ((A3.Body.err A3.missingMsg3, 400), ⟨[], [], 1, 1⟩)
      ∧ (A2.edit_business 1 ⟨some 1, some "A", some "1 St", none, some "WA", some "98101"⟩
          ⟨[⟨1, ⟨some 1, some "A", some "1 St", some "X", some "WA", some "98101"⟩⟩],
            [], 2, 1⟩).1.2 = 404) :=
  ⟨rfl, rfl,
    C7_put_missing_fields 1 ⟨some 1, some "A", some "1 St", none, some "WA", some "98101"⟩
      ⟨[], [], 1, 1⟩ 1 ⟨some 1, some "A", some "1 St", none, some "WA", some "98101"⟩
      ⟨[⟨1, ⟨some 1, some "A", some "1 St", some "X", some "WA", some "98101"⟩⟩], [], 2, 1⟩
      rfl rfl⟩
